import Mathlib

/-!
Shallow embedding of the PMX servo protocol driver
(PMXArduinoLib: PmxBaseClass.cpp, DataConvert.cpp, PmxHardSerialClass.cpp).

Machine integers are modelled as Nat (unsigned) and Int (signed), with
explicit reductions modulo 2^w where C integer conversions occur.
Byte buffers are `List Nat` whose elements are byte values (< 256 in every
run of the C program; theorems carry this as a hypothesis where it matters).

The checksum service (PmxCRC, not part of the core sources; the spec treats
it as an opaque compute/verify service) is abstracted as a parameter
`crcOk : List Nat → Bool` standing for `PmxCrc16::checkCrc16`.

The transport round trip (`synchronize` / `synchronizeVariableRead`) is
abstracted in the protocol-layer models as an explicit response parameter
(the mock-transport view of the spec); the hardware-serial transport itself
is modelled separately as a state machine with an I/O action trace.
-/

namespace PMX

/-- PMX::ErrorByteData (PmxBaseClass.h). -/
def ErrorByteData : Nat := 0xFF

/-- PMX::ErrorUint16Data (PmxBaseClass.h). -/
def ErrorUint16Data : Nat := 0x7FFF

/-- PMX::ErrorUint32Data (PmxBaseClass.h). -/
def ErrorUint32Data : Nat := 0x7FFFFFFF

namespace ComError

def OK : Nat := 0
def TimeOut : Nat := 0xFF00
def CrcError : Nat := 0xFE00
def FormatError : Nat := 0xFD00
def SendError : Nat := 0xFC00
def ReceiveError : Nat := 0xFB00
def MotorREADConvertError : Nat := 0xFA00
def ErrorMask : Nat := 0xFF00

end ComError

namespace SendCmd

def MemREAD : Nat := 0xa0
def MemWRITE : Nat := 0xa1
def LOAD : Nat := 0xa2
def SAVE : Nat := 0xa3
def MotorREAD : Nat := 0xa4
def MotorWRITE : Nat := 0xa5

end SendCmd

namespace BuffPter

def Header : Nat := 0
def Header1 : Nat := 1
def ID : Nat := 2
def Length : Nat := 3
def CMD : Nat := 4
def Option : Nat := 5
def Status : Nat := 5
def Data : Nat := 6

end BuffPter

namespace MinimumLength

def Send : Nat := 8
def Receive : Nat := 8

end MinimumLength

namespace ReceiveDataOption

def NoReturn : Nat := 0x00
def Position : Nat := 0x01
def Speed : Nat := 0x02
def Current : Nat := 0x04
def Torque : Nat := 0x08
def Pwm : Nat := 0x10
def MotorTemp : Nat := 0x20
def CpuTemp : Nat := 0x40
def Voltage : Nat := 0x80
def Full : Nat := 0xFF

end ReceiveDataOption

namespace ControlMode

def Position : Nat := 0x01

end ControlMode

namespace TorqueSwitchType

def TorqueOn : Nat := 0x01
def Free : Nat := 0x02
def Brake : Nat := 0x04
def Hold : Nat := 0x08
def Error : Nat := 0xFF

end TorqueSwitchType

end PMX

/-- C integer conversion to `unsigned short` (16-bit), as in the union-based
byte codecs: value reduced modulo 2^16. -/
def toUint16 (v : Int) : Nat := (v % 65536).toNat

/-- C integer conversion to `short` (16-bit two's complement), the effect of
a `(short)` cast in the source (GCC semantics: reduce modulo 2^16, then
reinterpret the bit pattern as signed). -/
def castToShort (v : Int) : Int :=
  let u := (v % 65536).toNat
  if u < 32768 then (u : Int) else (u : Int) - 65536

/-- C integer conversion of a (possibly negative) value to
`unsigned long` (32-bit): reduce modulo 2^32. -/
def toUint32 (v : Int) : Nat := (v % 4294967296).toNat

/-- `unsigned short` addition (`status += err` in the source): mod 2^16. -/
def addU16 (a b : Nat) : Nat := (a + b) % 65536

namespace DataConv

/-- DataConv::bytesToInt16 (DataConvert.cpp): the two bytes are placed into
the `Int16Byte` union little-endian and read back as a signed 16-bit value. -/
def bytesToInt16 (byteDatas : List Nat) : Int :=
  let u := byteDatas.getD 0 0 + 256 * byteDatas.getD 1 0
  if u < 32768 then (u : Int) else (u : Int) - 65536

/-- DataConv::bytesToUint16 (DataConvert.cpp). -/
def bytesToUint16 (byteDatas : List Nat) : Nat :=
  byteDatas.getD 0 0 + 256 * byteDatas.getD 1 0

/-- DataConv::bytesToInt32 (DataConvert.cpp): four little-endian bytes read
back as a signed 32-bit value. -/
def bytesToInt32 (byteDatas : List Nat) : Int :=
  let u := byteDatas.getD 0 0 + 256 * byteDatas.getD 1 0 +
           65536 * byteDatas.getD 2 0 + 16777216 * byteDatas.getD 3 0
  if u < 2147483648 then (u : Int) else (u : Int) - 4294967296

/-- DataConv::bytesToUint32 (DataConvert.cpp). -/
def bytesToUint32 (byteDatas : List Nat) : Nat :=
  byteDatas.getD 0 0 + 256 * byteDatas.getD 1 0 +
    65536 * byteDatas.getD 2 0 + 16777216 * byteDatas.getD 3 0

/-- DataConv::int16ToBytes (DataConvert.cpp): the signed 16-bit value's
two's-complement bit pattern, split into two little-endian bytes. -/
def int16ToBytes (shortData : Int) : List Nat :=
  let u := (shortData % 65536).toNat
  [u % 256, u / 256]

/-- DataConv::uint16ToBytes (DataConvert.cpp). -/
def uint16ToBytes (wordData : Nat) : List Nat :=
  [wordData % 256, wordData / 256 % 256]

/-- DataConv::int32ToBytes (DataConvert.cpp). -/
def int32ToBytes (longData : Int) : List Nat :=
  let u := (longData % 4294967296).toNat
  [u % 256, u / 256 % 256, u / 65536 % 256, u / 16777216]

/-- DataConv::uint32ToBytes (DataConvert.cpp). -/
def uint32ToBytes (dwordData : Nat) : List Nat :=
  [dwordData % 256, dwordData / 256 % 256, dwordData / 65536 % 256,
   dwordData / 16777216 % 256]

end DataConv

namespace PmxBase

/-- PmxBase::checkRecv (PmxBaseClass.cpp, lines 35-61).
`crcOk` abstracts `PmxCrc16::checkCrc16` (checksum service, out of core
scope per the spec).  Checks, in order: the two header bytes, the command
byte against the expected command masked to 7 bits, then the checksum. -/
def checkRecv (crcOk : List Nat → Bool) (rxBuff : List Nat)
    (cmd : Nat) (header : Nat) : Nat :=
  if rxBuff.getD 0 0 ≠ header ∨ rxBuff.getD 1 0 ≠ header then
    PMX.ComError.ReceiveError
  else if rxBuff.getD PMX.BuffPter.CMD 0 ≠ (cmd &&& 0x7f) then
    PMX.ComError.ReceiveError
  else if crcOk rxBuff = false then
    PMX.ComError.CrcError
  else
    PMX.ComError.OK

/-- The loop body of PmxBase::__byteCounter: 8 iterations, testing the low
bit and shifting right each time. -/
def countLoop : Nat → Nat → Nat → Nat
  | 0, _, cnt => cnt
  | i + 1, val, cnt =>
      countLoop i (val >>> 1) (if val &&& 0x01 = 1 then cnt + 1 else cnt)

/-- PmxBase::__byteCounter (PmxBaseClass.cpp, lines 652-666): counts the set
bits among the low 8 bits and returns twice the count (1 field = 2 bytes). -/
def byteCounter (val : Nat) : Nat := countLoop 8 val 0 * 2

/-- PmxBase::__convReceiveMotorData (PmxBaseClass.cpp, lines 680-781).
Re-initializes the 8-slot output to the sentinel, rejects a payload whose
size differs from `byteCounter receiveMode`, then walks the 8 canonical
fields in source order.  `receiveBytes.drop arrayCount` models the C call
`DataConv::bytesToInt16(&(receiveBytes[arrayCount]))`.
Returns (success flag, the 8-slot `motorData` output). -/
def convReceiveMotorData (receiveMode : Nat) (receiveBytes : List Nat)
    (receiveBytesSize : Nat) (controlMode : Nat) : Bool × List Int :=
  let motorData : List Int := List.replicate 8 (0x7FFFFFFF : Int)
  if receiveBytesSize ≠ byteCounter receiveMode then (false, motorData)
  else
    let arrayCount := 0
    -- position (signed when the position-control bit is set, else unsigned)
    let (motorData, arrayCount) :=
      if receiveMode &&& 0x01 = 0x01 then
        (motorData.set 0
          (if controlMode &&& 0x01 = 0x01 then
            DataConv.bytesToInt16 (receiveBytes.drop arrayCount)
          else
            (DataConv.bytesToUint16 (receiveBytes.drop arrayCount) : Int)),
         arrayCount + 2)
      else (motorData, arrayCount)
    -- speed
    let (motorData, arrayCount) :=
      if receiveMode &&& 0x02 = 0x02 then
        (motorData.set 1 (DataConv.bytesToInt16 (receiveBytes.drop arrayCount)),
         arrayCount + 2)
      else (motorData, arrayCount)
    -- current
    let (motorData, arrayCount) :=
      if receiveMode &&& 0x04 = 0x04 then
        (motorData.set 2 (DataConv.bytesToInt16 (receiveBytes.drop arrayCount)),
         arrayCount + 2)
      else (motorData, arrayCount)
    -- torque
    let (motorData, arrayCount) :=
      if receiveMode &&& 0x08 = 0x08 then
        (motorData.set 3 (DataConv.bytesToInt16 (receiveBytes.drop arrayCount)),
         arrayCount + 2)
      else (motorData, arrayCount)
    -- PWM
    let (motorData, arrayCount) :=
      if receiveMode &&& 0x10 = 0x10 then
        (motorData.set 4 (DataConv.bytesToInt16 (receiveBytes.drop arrayCount)),
         arrayCount + 2)
      else (motorData, arrayCount)
    -- motor temperature
    let (motorData, arrayCount) :=
      if receiveMode &&& 0x20 = 0x20 then
        (motorData.set 5 (DataConv.bytesToInt16 (receiveBytes.drop arrayCount)),
         arrayCount + 2)
      else (motorData, arrayCount)
    -- CPU temperature
    let (motorData, arrayCount) :=
      if receiveMode &&& 0x40 = 0x40 then
        (motorData.set 6 (DataConv.bytesToInt16 (receiveBytes.drop arrayCount)),
         arrayCount + 2)
      else (motorData, arrayCount)
    -- voltage (always unsigned)
    let (motorData, _) :=
      if receiveMode &&& 0x80 = 0x80 then
        (motorData.set 7
          ((DataConv.bytesToUint16 (receiveBytes.drop arrayCount) : Int)),
         arrayCount + 2)
      else (motorData, arrayCount)
    (true, motorData)

/-- PmxBase::MemREAD (PmxBaseClass.cpp, lines 75-140).
The transport round trip (`synchronize`) is abstracted by its outputs
`rxFlag` (success) and `rxbuf` (received frame).  Output: (composite
status, the bytes written into the caller's `rxData` buffer, whether the
transport was invoked). -/
def MemREAD (crcOk : List Nat → Bool) (rxFlag : Bool) (rxbuf : List Nat)
    (id addr readDataSize : Nat) : Nat × List Nat × Bool :=
  if readDataSize = 0 ∨ readDataSize ≥ 244 then
    (PMX.ComError.FormatError, [], false)
  else
    if rxFlag = false then
      (PMX.ComError.TimeOut, List.replicate readDataSize 0xFF, true)
    else
      let errorFlag := checkRecv crcOk rxbuf PMX.SendCmd.MemREAD 0xfe
      if errorFlag ≠ PMX.ComError.OK then (errorFlag, [], true)
      else
        let status := rxbuf.getD PMX.BuffPter.Status 0
        (status,
         (List.range readDataSize).map
           (fun i => rxbuf.getD (PMX.BuffPter.Data + i) 0),
         true)

/-- PmxBase::MemREADToByte (PmxBaseClass.cpp, lines 151-162).
Output: (composite status, final value of `*byteData`). -/
def MemREADToByte (crcOk : List Nat → Bool) (rxFlag : Bool) (rxbuf : List Nat)
    (id addr : Nat) : Nat × Nat :=
  let (status, rxData, _) := MemREAD crcOk rxFlag rxbuf id addr 1
  let byteData := rxData.getD 0 0
  let byteData :=
    if status &&& PMX.ComError.ErrorMask ≠ 0x0000 then PMX.ErrorByteData
    else byteData
  (status, byteData)

/-- PmxBase::MemREADToInt16 (PmxBaseClass.cpp, lines 173-187). -/
def MemREADToInt16 (crcOk : List Nat → Bool) (rxFlag : Bool) (rxbuf : List Nat)
    (id addr : Nat) : Nat × Int :=
  let (status, reByte, _) := MemREAD crcOk rxFlag rxbuf id addr 2
  let int16Data := DataConv.bytesToInt16 reByte
  let int16Data :=
    if status &&& PMX.ComError.ErrorMask ≠ 0x0000 then
      castToShort (PMX.ErrorUint16Data : Int)
    else int16Data
  (status, int16Data)

/-- PmxBase::MemREADToUint16 (PmxBaseClass.cpp, lines 198-212).
The error assignment is `(short)PMX::ErrorUint16Data` stored into an
`unsigned short`. -/
def MemREADToUint16 (crcOk : List Nat → Bool) (rxFlag : Bool) (rxbuf : List Nat)
    (id addr : Nat) : Nat × Nat :=
  let (status, reByte, _) := MemREAD crcOk rxFlag rxbuf id addr 2
  let uint16Data := DataConv.bytesToUint16 reByte
  let uint16Data :=
    if status &&& PMX.ComError.ErrorMask ≠ 0x0000 then
      toUint16 (castToShort (PMX.ErrorUint16Data : Int))
    else uint16Data
  (status, uint16Data)

/-- PmxBase::MemREADToInt32 (PmxBaseClass.cpp, lines 224-238).
The error assignment in the source is `*int32Data = (short)PMX::ErrorUint32Data`:
the 32-bit sentinel is first narrowed by a `(short)` cast. -/
def MemREADToInt32 (crcOk : List Nat → Bool) (rxFlag : Bool) (rxbuf : List Nat)
    (id addr : Nat) : Nat × Int :=
  let (status, reByte, _) := MemREAD crcOk rxFlag rxbuf id addr 4
  let int32Data := DataConv.bytesToInt32 reByte
  let int32Data :=
    if status &&& PMX.ComError.ErrorMask ≠ 0x0000 then
      castToShort (PMX.ErrorUint32Data : Int)
    else int32Data
  (status, int32Data)

/-- PmxBase::MemREADToUint32 (PmxBaseClass.cpp, lines 249-263).
Normal path stores `bytesToInt32` (a signed value) into an `unsigned long`;
the error path stores `(short)PMX::ErrorUint32Data`. -/
def MemREADToUint32 (crcOk : List Nat → Bool) (rxFlag : Bool) (rxbuf : List Nat)
    (id addr : Nat) : Nat × Nat :=
  let (status, reByte, _) := MemREAD crcOk rxFlag rxbuf id addr 4
  let uint32Data := toUint32 (DataConv.bytesToInt32 reByte)
  let uint32Data :=
    if status &&& PMX.ComError.ErrorMask ≠ 0x0000 then
      toUint32 (castToShort (PMX.ErrorUint32Data : Int))
    else uint32Data
  (status, uint32Data)

/-- PmxBase::MemWRITE (PmxBaseClass.cpp, lines 278-336).
Output: (composite status, whether the transport was invoked). -/
def MemWRITE (crcOk : List Nat → Bool) (rxFlag : Bool) (rxbuf : List Nat)
    (id addr : Nat) (txDataArray : List Nat) (txDataSize : Nat)
    (writeOpt : Nat) : Nat × Bool :=
  if txDataSize = 0 ∨ txDataSize ≥ 245 then
    (PMX.ComError.FormatError, false)
  else
    if rxFlag = false then (PMX.ComError.TimeOut, true)
    else
      let errorFlag := checkRecv crcOk rxbuf PMX.SendCmd.MemWRITE 0xfe
      if errorFlag ≠ PMX.ComError.OK then (errorFlag, true)
      else (rxbuf.getD PMX.BuffPter.Status 0, true)

/-- PmxBase::MotorREAD (PmxBaseClass.cpp, lines 552-641).
The variable-length round trip (`synchronizeVariableRead`) is abstracted by
its outputs `rxFlag` (success), `rxbuf` (received frame) and `rxNowSize`
(received byte count).  Output: (composite status, the 8-slot
`readMotorData` output, the `*torqueSw` output). -/
def MotorREAD (crcOk : List Nat → Bool) (rxFlag : Bool) (rxbuf : List Nat)
    (rxNowSize : Nat) (id receiveMode controlMode : Nat) :
    Nat × List Int × Nat :=
  let readDataSize := byteCounter receiveMode
  let rxSize := PMX.MinimumLength.Receive + 1 + readDataSize
  let readMotorData : List Int := List.replicate 8 (PMX.ErrorUint32Data : Int)
  let torqueSw := PMX.TorqueSwitchType.Error
  if rxFlag = false then (PMX.ComError.TimeOut, readMotorData, torqueSw)
  else
    let errorFlag := checkRecv crcOk rxbuf PMX.SendCmd.MotorREAD 0xfe
    if errorFlag ≠ PMX.ComError.OK then (errorFlag, readMotorData, torqueSw)
    else
      let torqueSw :=
        if rxNowSize ≥ PMX.MinimumLength.Receive then
          rxbuf.getD PMX.BuffPter.Data 0
        else torqueSw
      let status := rxbuf.getD PMX.BuffPter.Status 0
      if rxNowSize ≠ rxSize then
        (addU16 status PMX.ComError.MotorREADConvertError, readMotorData,
         torqueSw)
      else
        let rxMotorData := (List.range readDataSize).map
          (fun i => rxbuf.getD (PMX.BuffPter.Data + 1 + i) 0)
        let (flag, readMotorData) :=
          convReceiveMotorData receiveMode rxMotorData readDataSize controlMode
        if flag = false then
          (addU16 status PMX.ComError.MotorREADConvertError, readMotorData,
           torqueSw)
        else (status, readMotorData, torqueSw)

/-- PmxBase::MotorWRITE, torque-switch form with read-back
(PmxBaseClass.cpp, lines 812-929).  The variable-length round trip is
abstracted as in MotorREAD.  Output: (composite status, the 8-slot
`receiveData` output, whether the transport was invoked). -/
def MotorWRITE (crcOk : List Nat → Bool) (rxFlag : Bool) (rxbuf : List Nat)
    (rxNowSize : Nat) (id toruqeOnSw receiveMode controlMode : Nat) :
    Nat × List Int × Bool :=
  let receiveData : List Int := List.replicate 8 (PMX.ErrorUint32Data : Int)
  if ¬(toruqeOnSw = PMX.TorqueSwitchType.TorqueOn ∨
       toruqeOnSw = PMX.TorqueSwitchType.Free ∨
       toruqeOnSw = PMX.TorqueSwitchType.Brake ∨
       toruqeOnSw = PMX.TorqueSwitchType.Hold) then
    (PMX.ComError.FormatError, receiveData, false)
  else
    let readDataSize := byteCounter receiveMode
    let rxSize := PMX.MinimumLength.Receive + 1 + readDataSize
    if rxFlag = false then (PMX.ComError.TimeOut, receiveData, true)
    else
      let errorFlag := checkRecv crcOk rxbuf PMX.SendCmd.MotorWRITE 0xfe
      if errorFlag ≠ PMX.ComError.OK then (errorFlag, receiveData, true)
      else
        let status := rxbuf.getD PMX.BuffPter.Status 0
        if receiveMode = PMX.ReceiveDataOption.NoReturn then
          (status, receiveData, true)
        else if rxNowSize ≠ rxSize then
          -- the source adds ComError::ReceiveError here (line 902)
          (addU16 status PMX.ComError.ReceiveError, receiveData, true)
        else
          let rxMotorData := (List.range readDataSize).map
            (fun i => rxbuf.getD (PMX.BuffPter.Data + 1 + i) 0)
          let (flag, receiveData) :=
            convReceiveMotorData receiveMode rxMotorData readDataSize
              controlMode
          if flag = false then
            (addU16 status PMX.ComError.MotorREADConvertError, receiveData,
             true)
          else (status, receiveData, true)

end PmxBase

/-- One serial-port interaction performed by the transport
(PmxHardSerialClass.cpp): a write of a byte sequence, or a blocking
`readBytes` that requested `req` bytes and obtained `got`. -/
inductive SerialAct where
  | write (bytes : List Nat) : SerialAct
  | read (req got : Nat) : SerialAct
deriving DecidableEq, Repr

/-- The per-instance state of a PmxHardSerial object
(PmxHardSerialClass.h): the `pmxSerial` pointer (modelled as presence),
the private busy flag `_isSynchronize`, the two owned 256-byte scratch
buffers, and the stream of bytes the serial port will deliver to
`readBytes` calls. -/
structure HSState where
  hasSerial : Bool
  isSynchronize : Bool
  sendBuff : List Nat
  receiveBuff : List Nat
  rxStream : List Nat
deriving DecidableEq, Repr

namespace PmxHardSerial

/-- PmxHardSerial::__synchronizeWrite (PmxHardSerialClass.cpp, lines
323-341): copy the tx bytes into `sendBuff` and write them to the port.
(The flushes and the discard-read of stale input act on bytes that are not
part of `rxStream`, which models only the device's response.) -/
def synchronizeWrite (s : HSState) (txBuf : List Nat) (txLen : Nat) :
    HSState × List SerialAct :=
  ({ s with sendBuff := txBuf.take txLen }, [SerialAct.write (txBuf.take txLen)])

/-- `HardwareSerial::readBytes(buf, n)`: blocks until `n` bytes arrive or
the timeout elapses; returns the bytes read and their count.  The stream
models exactly the bytes that arrive before the timeout. -/
def readBytes (stream : List Nat) (n : Nat) : List Nat × Nat × List Nat :=
  (stream.take n, min n stream.length, stream.drop n)

/-- PmxHardSerial::synchronize (PmxHardSerialClass.cpp, lines 133-177):
fixed-length round trip.  Output: (success, caller's rxBuf contents,
new state, serial actions performed). -/
def synchronize (s : HSState) (txBuf : List Nat) (txLen rxLen : Nat) :
    Bool × List Nat × HSState × List SerialAct :=
  if s.hasSerial = false then (false, [], s, [])
  else if s.isSynchronize = true then (false, [], s, [])
  else
    let s := { s with isSynchronize := true }
    let (s, acts) := synchronizeWrite s txBuf txLen
    let s := { s with receiveBuff := List.replicate rxLen 0xFF }
    let (got, rxSize, rest) := readBytes s.rxStream rxLen
    let s := { s with
      receiveBuff := got ++ List.replicate (rxLen - got.length) 0xFF,
      rxStream := rest }
    let acts := acts ++ [SerialAct.read rxLen rxSize]
    let rxOut := s.receiveBuff.take rxLen
    let s := { s with isSynchronize := false }
    if rxSize ≠ rxLen then (false, rxOut, s, acts)
    else (true, rxOut, s, acts)

/-- PmxHardSerial::synchronizeVariableRead (PmxHardSerialClass.cpp, lines
197-265): two-phase variable-length round trip.  Output: (success, the
value written through `*rxLen` (`none` when left untouched), caller's
rxBuf contents, new state, serial actions).  `allRxSize - minRxSize` is
computed in `byte` arithmetic, hence the `+ 256` wrap. -/
def synchronizeVariableRead (s : HSState) (txBuf : List Nat) (txLen : Nat) :
    Bool × Option Nat × List Nat × HSState × List SerialAct :=
  if s.hasSerial = false then (false, none, [], s, [])
  else if s.isSynchronize = true then (false, none, [], s, [])
  else
    let s := { s with isSynchronize := true }
    let (s, acts) := synchronizeWrite s txBuf txLen
    let s := { s with receiveBuff := List.replicate 256 0xFF }
    let minRxSize := PMX.MinimumLength.Receive - 2
    let (got1, firstRxBuffSize, rest1) := readBytes s.rxStream minRxSize
    let s := { s with
      receiveBuff := got1 ++ List.replicate (256 - got1.length) 0xFF,
      rxStream := rest1 }
    let acts := acts ++ [SerialAct.read minRxSize firstRxBuffSize]
    if firstRxBuffSize ≠ minRxSize then
      let s := { s with isSynchronize := false }
      (false, some 0, [], s, acts)
    else
      let allRxSize := s.receiveBuff.getD PMX.BuffPter.Length 0 % 256
      let secondRxBuffSize := (allRxSize + 256 - minRxSize) % 256
      let (got2, sBuffSize, rest2) := readBytes s.rxStream secondRxBuffSize
      let s := { s with
        receiveBuff := (s.receiveBuff.take minRxSize ++ got2 ++
          List.replicate (256 - minRxSize - got2.length) 0xFF).take 256,
        rxStream := rest2 }
      let acts := acts ++ [SerialAct.read secondRxBuffSize sBuffSize]
      if secondRxBuffSize ≠ sBuffSize then
        let s := { s with isSynchronize := false }
        (false, some minRxSize, [], s, acts)
      else
        let rxOut := s.receiveBuff.take allRxSize
        let s := { s with isSynchronize := false }
        (true, some allRxSize, rxOut, s, acts)

/-- PmxHardSerial::synchronizeNoRead (PmxHardSerialClass.cpp, lines
276-300): send-only exchange. -/
def synchronizeNoRead (s : HSState) (txBuf : List Nat) (txLen : Nat) :
    Bool × HSState × List SerialAct :=
  if s.hasSerial = false then (false, s, [])
  else if s.isSynchronize = true then (false, s, [])
  else
    let s := { s with isSynchronize := true }
    let (s, acts) := synchronizeWrite s txBuf txLen
    let s := { s with isSynchronize := false }
    (true, s, acts)

end PmxHardSerial

/-!  Spec-side definitions, used to state the claims (never to replace the
source models above). -/

/-- Number of set bits among the low 8 bits of a mask (the spec's
`popcount` over an 8-bit field-selection mask). -/
def popcount8 (mask : Nat) : Nat :=
  (List.range 8).countP (fun i => mask.testBit i)

/-- Number of set bits of `mask` strictly below bit `k`: the wire rank of
canonical field `k` under the spec's canonical field order. -/
def rankBelow (mask k : Nat) : Nat :=
  (List.range k).countP (fun i => mask.testBit i)

/-- Spec-side motion-payload decode (spec sections 3 and 4.3): each set-bit
field, in canonical order (position, speed, current, torque, PWM,
motor-temperature, cpu-temperature, voltage), takes the next 2-byte
little-endian value; position is signed exactly when `controlMode` has the
position-control bit, voltage is always unsigned, all other fields are
signed; unselected slots hold the sentinel. -/
def canonicalDecode (mask : Nat) (bytes : List Nat) (controlMode : Nat) :
    List Int :=
  (List.range 8).map (fun k =>
    if mask.testBit k then
      let off := 2 * rankBelow mask k
      if k = 0 then
        (if controlMode &&& 0x01 = 0x01 then
          DataConv.bytesToInt16 (bytes.drop off)
        else (DataConv.bytesToUint16 (bytes.drop off) : Int))
      else if k = 7 then (DataConv.bytesToUint16 (bytes.drop off) : Int)
      else DataConv.bytesToInt16 (bytes.drop off)
    else (0x7FFFFFFF : Int))

/-- Modelled from the spec: the checksum algorithm (PmxCRC) is not among
the core sources and the spec declares it out of scope ("treated as an
opaque compute checksum / verify checksum service").  This instance stands
for a checksum service run on a frame it accepts; it is used only to
instantiate theorems that hold for every checksum service. -/
def crcAccept : List Nat → Bool := fun _ => true

/-! Theorems. -/

set_option maxRecDepth 8000 in
/-- Helper: on 8-bit inputs, the source's bit-count loop agrees with the
spec's popcount. -/
theorem byteCounter_eq_popcount8 :
    ∀ v : Nat, v < 256 → PmxBase.byteCounter v = 2 * popcount8 v := by
  decide

/-- C1: checkRecv checks header, then command, then checksum, in that
order: a header-byte mismatch yields ReceiveError for every checksum
verdict; with matching headers, a command mismatch (the expected command
masked to 7 bits) yields ReceiveError with a result independent of the
checksum service, i.e. without the checksum having been evaluated; with
matching header and command, a failing checksum yields CrcError; otherwise
the result is OK. -/
theorem checkRecv_check_order :
    (∀ (crcOk : List Nat → Bool) (buf : List Nat) (cmd hdr : Nat),
      (buf.getD 0 0 ≠ hdr ∨ buf.getD 1 0 ≠ hdr) →
      PmxBase.checkRecv crcOk buf cmd hdr = PMX.ComError.ReceiveError) ∧
    (∀ (crcOk crcOkB : List Nat → Bool) (buf : List Nat) (cmd hdr : Nat),
      buf.getD 0 0 = hdr → buf.getD 1 0 = hdr →
      buf.getD PMX.BuffPter.CMD 0 ≠ (cmd &&& 0x7f) →
      PmxBase.checkRecv crcOk buf cmd hdr = PMX.ComError.ReceiveError ∧
      PmxBase.checkRecv crcOk buf cmd hdr =
        PmxBase.checkRecv crcOkB buf cmd hdr) ∧
    (∀ (crcOk : List Nat → Bool) (buf : List Nat) (cmd hdr : Nat),
      buf.getD 0 0 = hdr → buf.getD 1 0 = hdr →
      buf.getD PMX.BuffPter.CMD 0 = (cmd &&& 0x7f) → crcOk buf = false →
      PmxBase.checkRecv crcOk buf cmd hdr = PMX.ComError.CrcError) ∧
    (∀ (crcOk : List Nat → Bool) (buf : List Nat) (cmd hdr : Nat),
      buf.getD 0 0 = hdr → buf.getD 1 0 = hdr →
      buf.getD PMX.BuffPter.CMD 0 = (cmd &&& 0x7f) → crcOk buf = true →
      PmxBase.checkRecv crcOk buf cmd hdr = PMX.ComError.OK) := by
  refine ⟨?_, ?_, ?_, ?_⟩
  · intro crcOk buf cmd hdr h
    unfold PmxBase.checkRecv
    rw [if_pos h]
  · intro crcOk crcOkB buf cmd hdr h0 h1 hc
    have hhdr : ¬(buf.getD 0 0 ≠ hdr ∨ buf.getD 1 0 ≠ hdr) := by
      rintro (h | h)
      · exact h h0
      · exact h h1
    constructor
    · unfold PmxBase.checkRecv
      rw [if_neg hhdr, if_pos hc]
    · unfold PmxBase.checkRecv
      rw [if_neg hhdr, if_pos hc, if_neg hhdr, if_pos hc]
  · intro crcOk buf cmd hdr h0 h1 hc hcrc
    have hhdr : ¬(buf.getD 0 0 ≠ hdr ∨ buf.getD 1 0 ≠ hdr) := by
      rintro (h | h)
      · exact h h0
      · exact h h1
    have hcm : ¬(buf.getD PMX.BuffPter.CMD 0 ≠ (cmd &&& 0x7f)) :=
      fun h => h hc
    unfold PmxBase.checkRecv
    rw [if_neg hhdr, if_neg hcm, if_pos hcrc]
  · intro crcOk buf cmd hdr h0 h1 hc hcrc
    have hhdr : ¬(buf.getD 0 0 ≠ hdr ∨ buf.getD 1 0 ≠ hdr) := by
      rintro (h | h)
      · exact h h0
      · exact h h1
    have hcm : ¬(buf.getD PMX.BuffPter.CMD 0 ≠ (cmd &&& 0x7f)) :=
      fun h => h hc
    unfold PmxBase.checkRecv
    rw [if_neg hhdr, if_neg hcm, if_neg (by simp [hcrc])]

/-- Witness for C1: a well-formed MotorREAD response frame accepted by the
checksum service validates OK. -/
theorem checkRecv_check_order_witness :
    PmxBase.checkRecv crcAccept [0xFE, 0xFE, 1, 8, 0x24, 0, 0, 0]
      0xA4 0xFE = PMX.ComError.OK :=
  checkRecv_check_order.2.2.2 crcAccept [0xFE, 0xFE, 1, 8, 0x24, 0, 0, 0]
    0xA4 0xFE (by decide) (by decide) (by decide) (by decide)

/-- C8: __byteCounter returns twice the number of set bits of an 8-bit
mask; in particular it maps 0b10110001 to 8, 0 to 0 and 0xFF to 16. -/
theorem byteCounter_twice_popcount :
    (∀ v : Nat, v < 256 → PmxBase.byteCounter v = 2 * popcount8 v) ∧
    PmxBase.byteCounter 0b10110001 = 8 ∧
    PmxBase.byteCounter 0 = 0 ∧
    PmxBase.byteCounter 0xFF = 16 :=
  ⟨byteCounter_eq_popcount8, by decide, by decide, by decide⟩

/-- Witness for C8 at the spec's example mask 0b10110001. -/
theorem byteCounter_twice_popcount_witness :
    PmxBase.byteCounter 0b10110001 = 2 * popcount8 0b10110001 :=
  byteCounter_twice_popcount.1 0b10110001 (by decide)

/-- C10: each serializer/deserializer pair of the byte codecs is a round
trip over little-endian byte order, at every width, on the width's value
range. -/
theorem dataConv_roundtrip :
    (∀ v : Int, -32768 ≤ v → v < 32768 →
      DataConv.bytesToInt16 (DataConv.int16ToBytes v) = v) ∧
    (∀ v : Nat, v < 65536 →
      DataConv.bytesToUint16 (DataConv.uint16ToBytes v) = v) ∧
    (∀ v : Int, -2147483648 ≤ v → v < 2147483648 →
      DataConv.bytesToInt32 (DataConv.int32ToBytes v) = v) ∧
    (∀ v : Nat, v < 4294967296 →
      DataConv.bytesToUint32 (DataConv.uint32ToBytes v) = v) := by
  refine ⟨?_, ?_, ?_, ?_⟩
  · intro v h1 h2
    simp only [DataConv.bytesToInt16, DataConv.int16ToBytes,
      List.getD_cons_zero, List.getD_cons_succ]
    split <;> omega
  · intro v h
    simp only [DataConv.bytesToUint16, DataConv.uint16ToBytes,
      List.getD_cons_zero, List.getD_cons_succ]
    omega
  · intro v h1 h2
    simp only [DataConv.bytesToInt32, DataConv.int32ToBytes,
      List.getD_cons_zero, List.getD_cons_succ]
    split <;> omega
  · intro v h
    simp only [DataConv.bytesToUint32, DataConv.uint32ToBytes,
      List.getD_cons_zero, List.getD_cons_succ]
    omega

/-- Witness for C10 at concrete values of all four widths. -/
theorem dataConv_roundtrip_witness :
    DataConv.bytesToInt16 (DataConv.int16ToBytes (-12345)) = -12345 ∧
    DataConv.bytesToUint16 (DataConv.uint16ToBytes 54321) = 54321 ∧
    DataConv.bytesToInt32 (DataConv.int32ToBytes (-123456789)) =
      -123456789 ∧
    DataConv.bytesToUint32 (DataConv.uint32ToBytes 3123456789) =
      3123456789 :=
  ⟨dataConv_roundtrip.1 (-12345) (by decide) (by decide),
   dataConv_roundtrip.2.1 54321 (by decide),
   dataConv_roundtrip.2.2.1 (-123456789) (by decide) (by decide),
   dataConv_roundtrip.2.2.2 3123456789 (by decide)⟩

/-- C4: argument-precondition violations are rejected with FormatError and
the transport is never invoked: MemREAD for a size of 0 or ≥ 244, MemWRITE
for a size of 0 or ≥ 245, and the torque-switch MotorWRITE for a switch
value outside {TorqueOn, Free, Brake, Hold} — in each case for every
possible transport response, with the transport-called flag false. -/
theorem formatError_before_transport :
    (∀ (crcOk : List Nat → Bool) (rxFlag : Bool) (rxbuf : List Nat)
       (id addr n : Nat),
      n = 0 ∨ 244 ≤ n →
      PmxBase.MemREAD crcOk rxFlag rxbuf id addr n =
        (PMX.ComError.FormatError, [], false)) ∧
    (∀ (crcOk : List Nat → Bool) (rxFlag : Bool) (rxbuf : List Nat)
       (id addr : Nat) (txData : List Nat) (n wopt : Nat),
      n = 0 ∨ 245 ≤ n →
      PmxBase.MemWRITE crcOk rxFlag rxbuf id addr txData n wopt =
        (PMX.ComError.FormatError, false)) ∧
    (∀ (crcOk : List Nat → Bool) (rxFlag : Bool) (rxbuf : List Nat)
       (rxNowSize id sw mode ctrl : Nat),
      sw ≠ PMX.TorqueSwitchType.TorqueOn → sw ≠ PMX.TorqueSwitchType.Free →
      sw ≠ PMX.TorqueSwitchType.Brake → sw ≠ PMX.TorqueSwitchType.Hold →
      PmxBase.MotorWRITE crcOk rxFlag rxbuf rxNowSize id sw mode ctrl =
        (PMX.ComError.FormatError, List.replicate 8 ((0x7FFFFFFF : Int)),
         false)) := by
  refine ⟨?_, ?_, ?_⟩
  · intro crcOk rxFlag rxbuf id addr n h
    have : n = 0 ∨ n ≥ 244 := h
    simp [PmxBase.MemREAD, this]
  · intro crcOk rxFlag rxbuf id addr txData n wopt h
    have : n = 0 ∨ n ≥ 245 := h
    simp [PmxBase.MemWRITE, this]
  · intro crcOk rxFlag rxbuf rxNowSize id sw mode ctrl h1 h2 h4 h8
    simp [PmxBase.MotorWRITE, PMX.ErrorUint32Data, h1, h2, h4, h8]

/-- Witness for C4: concrete precondition-violating calls (size 0, size 0,
switch value 0x99) all yield FormatError with no transport call. -/
theorem formatError_before_transport_witness :
    PmxBase.MemREAD crcAccept true [] 1 0 0 =
      (PMX.ComError.FormatError, [], false) ∧
    PmxBase.MemWRITE crcAccept true [] 1 0 [] 0 0 =
      (PMX.ComError.FormatError, false) ∧
    PmxBase.MotorWRITE crcAccept true [] 0 1 0x99 0 1 =
      (PMX.ComError.FormatError, List.replicate 8 ((0x7FFFFFFF : Int)),
       false) :=
  ⟨formatError_before_transport.1 crcAccept true [] 1 0 0 (Or.inl rfl),
   formatError_before_transport.2.1 crcAccept true [] 1 0 [] 0 0
     (Or.inl rfl),
   formatError_before_transport.2.2 crcAccept true [] 0 1 0x99 0 1
     (by decide) (by decide) (by decide) (by decide)⟩

/-- C2: when a MotorREAD response passes validation but the received byte
count differs from the expected count (8-byte minimum + 1 torque-switch
byte + 2 × popcount(receiveMode)), the call returns the device status byte
plus MotorREADConvertError in the high byte and leaves all 8 output slots
at the sentinel 0x7FFFFFFF, without decoding any field. -/
theorem motorREAD_size_mismatch :
    ∀ (crcOk : List Nat → Bool) (rxbuf : List Nat)
      (rxNowSize id receiveMode controlMode : Nat),
      receiveMode < 256 →
      PmxBase.checkRecv crcOk rxbuf PMX.SendCmd.MotorREAD 0xfe =
        PMX.ComError.OK →
      rxbuf.getD PMX.BuffPter.Status 0 < 256 →
      rxNowSize ≠ PMX.MinimumLength.Receive + 1 + 2 * popcount8 receiveMode →
      PmxBase.MotorREAD crcOk true rxbuf rxNowSize id receiveMode
          controlMode =
        (rxbuf.getD PMX.BuffPter.Status 0 +
           PMX.ComError.MotorREADConvertError,
         List.replicate 8 ((0x7FFFFFFF : Int)),
         if rxNowSize ≥ PMX.MinimumLength.Receive then
           rxbuf.getD PMX.BuffPter.Data 0
         else PMX.TorqueSwitchType.Error) := by
  intro crcOk rxbuf rxNowSize id receiveMode controlMode hmode hchk hstat hsz
  have hbc : PmxBase.byteCounter receiveMode = 2 * popcount8 receiveMode :=
    byteCounter_eq_popcount8 receiveMode hmode
  have hsz2 : rxNowSize ≠
      PMX.MinimumLength.Receive + 1 + PmxBase.byteCounter receiveMode := by
    rw [hbc]; exact hsz
  have hadd : addU16 (rxbuf.getD PMX.BuffPter.Status 0)
      PMX.ComError.MotorREADConvertError =
      rxbuf.getD PMX.BuffPter.Status 0 +
        PMX.ComError.MotorREADConvertError := by
    unfold addU16 PMX.ComError.MotorREADConvertError
    unfold PMX.BuffPter.Status at hstat ⊢
    omega
  simp only [PmxBase.MotorREAD]
  rw [hchk]
  simp only [if_pos hsz2, hadd, PMX.ErrorUint32Data]
  simp

/-- Witness for C2: a validated frame of 11 bytes where 13 were expected
(receiveMode selecting position and current). -/
theorem motorREAD_size_mismatch_witness :
    PmxBase.MotorREAD crcAccept
        true [0xFE, 0xFE, 1, 11, 0x24, 3, 9, 1, 2, 0, 0] 11 1 5 1 =
      (([0xFE, 0xFE, 1, 11, 0x24, 3, 9, 1, 2, 0, 0] : List Nat).getD
          PMX.BuffPter.Status 0 + PMX.ComError.MotorREADConvertError,
       List.replicate 8 ((0x7FFFFFFF : Int)),
       if 11 ≥ PMX.MinimumLength.Receive then
         ([0xFE, 0xFE, 1, 11, 0x24, 3, 9, 1, 2, 0, 0] : List Nat).getD
           PMX.BuffPter.Data 0
       else PMX.TorqueSwitchType.Error) :=
  motorREAD_size_mismatch crcAccept
    [0xFE, 0xFE, 1, 11, 0x24, 3, 9, 1, 2, 0, 0] 11 1 5 1
    (by decide) (by decide) (by decide) (by decide)

/-- C7 counterexample: the torque-switch MotorWRITE with a read-back mask,
given a validated frame of 11 bytes where 13 were expected, returns the
device status byte (0 here) plus ReceiveError (0xFB00) — not plus
MotorREADConvertError (0xFA00) as the claim states. -/
theorem motorWRITE_size_mismatch_counterexample :
    (PmxBase.MotorWRITE crcAccept
        true [0xFE, 0xFE, 1, 11, 0x25, 0, 9, 1, 2, 0, 0] 11
        1 1 5 1).1 = 0xFB00 ∧
    (0xFB00 : Nat) ≠ 0 + PMX.ComError.MotorREADConvertError := by
  constructor
  · decide
  · decide

/-- C7 (amended): on a size mismatch, the torque-switch MotorWRITE with a
read-back mask returns the device status byte plus ReceiveError (0xFB00)
in the high byte, and attempts no field decode (the 8 output slots stay at
the sentinel). -/
theorem motorWRITE_size_mismatch :
    ∀ (crcOk : List Nat → Bool) (rxbuf : List Nat)
      (rxNowSize id sw receiveMode controlMode : Nat),
      (sw = PMX.TorqueSwitchType.TorqueOn ∨ sw = PMX.TorqueSwitchType.Free ∨
       sw = PMX.TorqueSwitchType.Brake ∨ sw = PMX.TorqueSwitchType.Hold) →
      receiveMode ≠ PMX.ReceiveDataOption.NoReturn →
      receiveMode < 256 →
      PmxBase.checkRecv crcOk rxbuf PMX.SendCmd.MotorWRITE 0xfe =
        PMX.ComError.OK →
      rxbuf.getD PMX.BuffPter.Status 0 < 256 →
      rxNowSize ≠ PMX.MinimumLength.Receive + 1 + 2 * popcount8 receiveMode →
      PmxBase.MotorWRITE crcOk true rxbuf rxNowSize id sw receiveMode
          controlMode =
        (rxbuf.getD PMX.BuffPter.Status 0 + PMX.ComError.ReceiveError,
         List.replicate 8 ((0x7FFFFFFF : Int)), true) := by
  intro crcOk rxbuf rxNowSize id sw receiveMode controlMode hsw hnr hmode
    hchk hstat hsz
  have hbc : PmxBase.byteCounter receiveMode = 2 * popcount8 receiveMode :=
    byteCounter_eq_popcount8 receiveMode hmode
  have hsz2 : rxNowSize ≠
      PMX.MinimumLength.Receive + 1 + PmxBase.byteCounter receiveMode := by
    rw [hbc]; exact hsz
  have hadd : addU16 (rxbuf.getD PMX.BuffPter.Status 0)
      PMX.ComError.ReceiveError =
      rxbuf.getD PMX.BuffPter.Status 0 + PMX.ComError.ReceiveError := by
    unfold addU16 PMX.ComError.ReceiveError
    unfold PMX.BuffPter.Status at hstat ⊢
    omega
  simp only [PmxBase.MotorWRITE]
  rw [if_neg (not_not_intro hsw), hchk]
  simp only [if_neg hnr, if_pos hsz2, hadd, PMX.ErrorUint32Data]
  simp

/-- Witness for the amended C7 at the counterexample's concrete input. -/
theorem motorWRITE_size_mismatch_witness :
    PmxBase.MotorWRITE crcAccept
        true [0xFE, 0xFE, 1, 11, 0x25, 0, 9, 1, 2, 0, 0] 11 1 1 5 1 =
      (([0xFE, 0xFE, 1, 11, 0x25, 0, 9, 1, 2, 0, 0] : List Nat).getD
          PMX.BuffPter.Status 0 + PMX.ComError.ReceiveError,
       List.replicate 8 ((0x7FFFFFFF : Int)), true) :=
  motorWRITE_size_mismatch crcAccept
    [0xFE, 0xFE, 1, 11, 0x25, 0, 9, 1, 2, 0, 0] 11 1 1 5 1
    (Or.inl rfl) (by decide) (by decide) (by decide) (by decide) (by decide)

/-- C6 counterexample: an 8-byte frame whose declared-length byte (position
3) says 200 still validates OK — checkRecv performs no declared-length
match.  (The checksum service is opaque per the spec; `crcAccept` stands
for a service that accepts this frame.) -/
theorem checkRecv_ignores_declared_length :
    PmxBase.checkRecv crcAccept [0xFE, 0xFE, 1, 200, 0x24, 0, 0, 0]
        PMX.SendCmd.MotorREAD 0xfe = PMX.ComError.OK ∧
    ([0xFE, 0xFE, 1, 200, 0x24, 0, 0, 0] : List Nat).getD
        PMX.BuffPter.Length 0 = 200 ∧
    ([0xFE, 0xFE, 1, 200, 0x24, 0, 0, 0] : List Nat).length = 8 := by
  refine ⟨by decide, by decide, by decide⟩

/-- C6 (amended): checkRecv validates only the header bytes, the command
byte and the checksum verdict: its result is unchanged between any two
frames that agree on those three inputs — in particular it performs no
declared-length match (neither the length byte at position 3 nor the
actual frame size influences the result). -/
theorem checkRecv_no_length_check :
    ∀ (crcOk : List Nat → Bool) (bufA bufB : List Nat) (cmd hdr : Nat),
      bufA.getD 0 0 = bufB.getD 0 0 →
      bufA.getD 1 0 = bufB.getD 1 0 →
      bufA.getD PMX.BuffPter.CMD 0 = bufB.getD PMX.BuffPter.CMD 0 →
      crcOk bufA = crcOk bufB →
      PmxBase.checkRecv crcOk bufA cmd hdr =
        PmxBase.checkRecv crcOk bufB cmd hdr := by
  intro crcOk bufA bufB cmd hdr h0 h1 hc hcrc
  unfold PmxBase.checkRecv
  rw [h0, h1, hc, hcrc]

/-- Witness for the amended C6: two frames of different actual length and
different declared-length bytes, agreeing on headers, command byte and
checksum verdict, validate identically. -/
theorem checkRecv_no_length_check_witness :
    PmxBase.checkRecv crcAccept [0xFE, 0xFE, 1, 8, 0x24, 0, 0, 0]
        PMX.SendCmd.MotorREAD 0xfe =
      PmxBase.checkRecv crcAccept
        [0xFE, 0xFE, 9, 250, 0x24, 77, 1, 2, 3, 4, 5]
        PMX.SendCmd.MotorREAD 0xfe :=
  checkRecv_no_length_check crcAccept [0xFE, 0xFE, 1, 8, 0x24, 0, 0, 0]
    [0xFE, 0xFE, 9, 250, 0x24, 77, 1, 2, 3, 4, 5]
    PMX.SendCmd.MotorREAD 0xfe (by decide) (by decide) (by decide) rfl

/-- C3 (code bug, evaluated at the failing input): on a transport timeout
every typed register read returns composite status TimeOut and the 1- and
2-byte reads leave the width-appropriate sentinel (0xFF, 0x7FFF), but the
4-byte reads do not leave 0x7FFFFFFF: the source narrows the 32-bit
sentinel through a `(short)` cast, so MemREADToInt32 leaves -1 and
MemREADToUint32 leaves 0xFFFFFFFF. -/
theorem memREADTyped_timeout_sentinels :
    PmxBase.MemREADToByte crcAccept false [] 1 300 =
      (PMX.ComError.TimeOut, 0xFF) ∧
    PmxBase.MemREADToInt16 crcAccept false [] 1 300 =
      (PMX.ComError.TimeOut, 0x7FFF) ∧
    PmxBase.MemREADToUint16 crcAccept false [] 1 300 =
      (PMX.ComError.TimeOut, 0x7FFF) ∧
    PmxBase.MemREADToInt32 crcAccept false [] 1 300 =
      (PMX.ComError.TimeOut, -1) ∧
    PmxBase.MemREADToUint32 crcAccept false [] 1 300 =
      (PMX.ComError.TimeOut, 0xFFFFFFFF) ∧
    (-1 : Int) ≠ (0x7FFFFFFF : Int) ∧
    (0xFFFFFFFF : Nat) ≠ 0x7FFFFFFF := by
  refine ⟨by decide, by decide, by decide, by decide, by decide,
    by decide, by decide⟩

set_option maxRecDepth 4000 in
set_option maxHeartbeats 4000000 in
/-- C5: for every 8-bit field-selection mask and a payload of exactly
2 × popcount(mask) bytes, the motion decode consumes consecutive 2-byte
little-endian values in the canonical order position, speed, current,
torque, PWM, motor-temperature, cpu-temperature, voltage; position
decodes signed exactly when controlMode has the position-control bit 0x01
and unsigned otherwise, voltage always decodes unsigned, every other field
decodes signed, and every unselected slot stays at the sentinel
0x7FFFFFFF. -/
theorem convReceiveMotorData_canonical :
    ∀ (mask : Nat), mask < 256 → ∀ (bytes : List Nat) (controlMode : Nat),
      bytes.length = 2 * popcount8 mask →
      PmxBase.convReceiveMotorData mask bytes (2 * popcount8 mask)
          controlMode =
        (true, canonicalDecode mask bytes controlMode) := by
  intro mask hm bytes controlMode hlen
  interval_cases mask <;> rfl

/-- Witness for C5 at the spec's field-ordering example: a mask selecting
speed and voltage with a 4-byte payload. -/
theorem convReceiveMotorData_canonical_witness :
    PmxBase.convReceiveMotorData 0x82 [1, 2, 255, 255]
        (2 * popcount8 0x82) 1 =
      (true, canonicalDecode 0x82 [1, 2, 255, 255] 1) :=
  convReceiveMotorData_canonical 0x82 (by decide) [1, 2, 255, 255] 1
    (by decide)

/-- C9: each of the three transport operations is exclusive with respect to
the per-instance busy flag: when `_isSynchronize` is already true the call
returns false immediately, leaves the whole state (busy flag, buffers,
input stream) unchanged and performs no serial I/O; and after any call the
busy flag equals its entry value — in particular every completed call
(one that entered with the flag clear) returns with the flag clear. -/
theorem transport_busy_guard :
    (∀ (s : HSState) (tx : List Nat) (txLen rxLen : Nat),
      s.isSynchronize = true →
      PmxHardSerial.synchronize s tx txLen rxLen = (false, [], s, [])) ∧
    (∀ (s : HSState) (tx : List Nat) (txLen rxLen : Nat),
      (PmxHardSerial.synchronize s tx txLen rxLen).2.2.1.isSynchronize =
        s.isSynchronize) ∧
    (∀ (s : HSState) (tx : List Nat) (txLen : Nat),
      s.isSynchronize = true →
      PmxHardSerial.synchronizeVariableRead s tx txLen =
        (false, none, [], s, [])) ∧
    (∀ (s : HSState) (tx : List Nat) (txLen : Nat),
      (PmxHardSerial.synchronizeVariableRead s tx
          txLen).2.2.2.1.isSynchronize = s.isSynchronize) ∧
    (∀ (s : HSState) (tx : List Nat) (txLen : Nat),
      s.isSynchronize = true →
      PmxHardSerial.synchronizeNoRead s tx txLen = (false, s, [])) ∧
    (∀ (s : HSState) (tx : List Nat) (txLen : Nat),
      (PmxHardSerial.synchronizeNoRead s tx txLen).2.1.isSynchronize =
        s.isSynchronize) := by
  refine ⟨?_, ?_, ?_, ?_, ?_, ?_⟩
  · intro s tx txLen rxLen h
    unfold PmxHardSerial.synchronize
    rcases hs : s.hasSerial with _ | _ <;> simp [hs, h]
  · intro s tx txLen rxLen
    unfold PmxHardSerial.synchronize PmxHardSerial.synchronizeWrite
      PmxHardSerial.readBytes
    rcases hs : s.hasSerial with _ | _ <;>
      rcases hb : s.isSynchronize with _ | _ <;>
      simp [hs, hb] <;> (try split) <;> simp
  · intro s tx txLen h
    unfold PmxHardSerial.synchronizeVariableRead
    rcases hs : s.hasSerial with _ | _ <;> simp [hs, h]
  · intro s tx txLen
    unfold PmxHardSerial.synchronizeVariableRead PmxHardSerial.synchronizeWrite
      PmxHardSerial.readBytes
    rcases hs : s.hasSerial with _ | _ <;>
      rcases hb : s.isSynchronize with _ | _ <;>
      simp [hs, hb] <;> (try split) <;> (try simp) <;> (try split) <;> simp
  · intro s tx txLen h
    unfold PmxHardSerial.synchronizeNoRead
    rcases hs : s.hasSerial with _ | _ <;> simp [hs, h]
  · intro s tx txLen
    unfold PmxHardSerial.synchronizeNoRead PmxHardSerial.synchronizeWrite
    rcases hs : s.hasSerial with _ | _ <;>
      rcases hb : s.isSynchronize with _ | _ <;> simp [hs, hb]

/-- Witness for C9: a busy instance rejects all three operations without
state change or I/O. -/
theorem transport_busy_guard_witness :
    PmxHardSerial.synchronize ⟨true, true, [], [], [1, 2, 3]⟩ [9] 1 2 =
      (false, [], ⟨true, true, [], [], [1, 2, 3]⟩, []) ∧
    PmxHardSerial.synchronizeVariableRead ⟨true, true, [], [], [1, 2, 3]⟩
        [9] 1 = (false, none, [], ⟨true, true, [], [], [1, 2, 3]⟩, []) ∧
    PmxHardSerial.synchronizeNoRead ⟨true, true, [], [], [1, 2, 3]⟩ [9] 1 =
      (false, ⟨true, true, [], [], [1, 2, 3]⟩, []) :=
  ⟨transport_busy_guard.1 ⟨true, true, [], [], [1, 2, 3]⟩ [9] 1 2 rfl,
   transport_busy_guard.2.2.1 ⟨true, true, [], [], [1, 2, 3]⟩ [9] 1 rfl,
   transport_busy_guard.2.2.2.2.1 ⟨true, true, [], [], [1, 2, 3]⟩ [9] 1 rfl⟩
